import Mathlib

/-!
Verification of the mysql-healthcheck node status evaluator, HTTP health
responder, standalone exit-code mapping, configuration path normalization
and DSN/TLS construction.  Each definition is a shallow embedding of the
corresponding Go function; the backing database node is modelled as an
explicit record of the signals the code can observe, and panics of the Go
code are modelled as the value `none`.
-/

/-- ServerStatus mirrors the Go type ServerStatus of src/database.go:
the four verdicts of a health evaluation (Go constants 1..4). -/
inductive ServerStatus where
  | Available
  | ReadOnly
  | NotReady
  | Unavailable
  deriving DecidableEq

/-- WsrepStatus is an integer in Go (type WsrepStatus int); the cast
WsrepStatus(value) in getWsrepLocalState accepts any integer, so the
embedding keeps the raw integer type. -/
abbrev WsrepStatus := Int

/-- Go constant Joining WsrepStatus = 1 (src/database.go). -/
def Joining : WsrepStatus := 1

/-- Go constant Donor WsrepStatus = 2 (src/database.go). -/
def Donor : WsrepStatus := 2

/-- Go constant Joined WsrepStatus = 3 (src/database.go); the Go name is
taken in Mathlib, hence the suffix. -/
def JoinedState : WsrepStatus := 3

/-- Go constant Synced WsrepStatus = 4 (src/database.go). -/
def Synced : WsrepStatus := 4

/-- Observable actions issued against the database connection handle,
used to state frame properties (which queries an evaluation issues). -/
inductive DBEvent where
  | ping
  | prepareWsrep
  | queryWsrep
  | closeWsrep
  | prepareRO
  | queryRO
  | closeRO
  | queryCustom
  deriving DecidableEq

/-- The backing state of one database node as observable through the
connection handle h.db: outcome of Ping, of Prepare for each fixed
introspection query, the single row each QueryRow().Scan would yield
(`none` models a query or scan error, which in Go leaves the scanned
variables at their zero values), and the custom query backing state. -/
structure DBConn where
  pingOk : Bool
  wsrepPrepareOk : Bool
  wsrepRow : Option (String × Int)
  roPrepareOk : Bool
  roRow : Option (String × String)
  customQueryOk : Bool
  customRow : Option String
  deriving DecidableEq

/-- The package-level mutable variables customQuery and customResult of
src/database.go (var customQuery string; var customResult string).  Their
Go zero value is the empty string. -/
structure Globals where
  customQuery : String
  customResult : String
  deriving DecidableEq

/-- Initial value of the package-level variables (Go zero values). -/
def initialGlobals : Globals := { customQuery := "", customResult := "" }

/-- DBHandler of src/database.go, without the raw db pointer (the backing
node is passed separately as a DBConn). -/
structure DBHandler where
  availableWhenDonor : Bool
  availableWhenReadOnly : Bool
  deriving DecidableEq

/-- The configuration keys read by the embedded functions, as exposed by
the config provider: IsSet(key) is Option.isSome, GetString of an unset
key is the empty string, GetBool of an unset key is false. -/
structure AppConfig where
  unixSocket : Option String
  host : Option String
  port : Option String
  user : Option String
  password : Option String
  tlsRequired : Bool
  tlsSkipVerify : Bool
  tlsCA : Option String
  tlsCert : Option String
  tlsKey : Option String
  availableWhenDonor : Bool
  availableWhenReadOnly : Bool
  customQuery : Option String
  customResult : Option String

/-- CreateDBHandler of src/database.go lines 65-83: builds the handler
from the options keys and, when both customQuery and customResult are set,
stores them into the package-level variables. -/
def CreateDBHandler (config : AppConfig) (g : Globals) : DBHandler × Globals :=
  let instanceHandler : DBHandler :=
    { availableWhenDonor := config.availableWhenDonor,
      availableWhenReadOnly := config.availableWhenReadOnly }
  if config.customQuery.isSome ∧ config.customResult.isSome then
    (instanceHandler,
      { customQuery := config.customQuery.getD "",
        customResult := config.customResult.getD "" })
  else
    (instanceHandler, g)

/-- getWsrepLocalState of src/database.go lines 213-237.  On a prepare
error it returns Joining at once (no statement to close); otherwise the
statement is queried, scanned and closed by the deferred function, a scan
error again yielding Joining, and a scanned row yielding its integer value
cast to WsrepStatus. -/
def getWsrepLocalState (c : DBConn) : WsrepStatus × List DBEvent :=
  if c.wsrepPrepareOk then
    match c.wsrepRow with
    | some (_, value) =>
        (value, [DBEvent.prepareWsrep, DBEvent.queryWsrep, DBEvent.closeWsrep])
    | none =>
        (Joining, [DBEvent.prepareWsrep, DBEvent.queryWsrep, DBEvent.closeWsrep])
  else
    (Joining, [DBEvent.prepareWsrep])

/-- isReadOnly of src/database.go lines 309-335.  On a prepare error the
Go code only logs and keeps going with a nil statement handle, so the
subsequent QueryRow (and the deferred Close) dereference nil and the
function panics: modelled as `none`.  When the statement exists, a scan
error leaves value at its zero value (the empty string) and the function
returns (value == OFF ? false : true) after the deferred Close. -/
def isReadOnly (c : DBConn) : Option Bool × List DBEvent :=
  if c.roPrepareOk then
    let value :=
      match c.roRow with
      | some (_, v) => v
      | none => ""
    if value = "OFF" then
      (some false, [DBEvent.prepareRO, DBEvent.queryRO, DBEvent.closeRO])
    else
      (some true, [DBEvent.prepareRO, DBEvent.queryRO, DBEvent.closeRO])
  else
    (none, [DBEvent.prepareRO])

/-- getCustomRequest of src/database.go lines 239-305 (the live code,
ignoring the commented-out blocks): runs the custom query; a query error
yields NotReady, no first row yields NotReady, a first row equal to
customResult yields Available and anything else yields NotReady. -/
def getCustomRequest (g : Globals) (c : DBConn) : ServerStatus × List DBEvent :=
  if c.customQueryOk then
    match c.customRow with
    | some queryResult =>
        if queryResult = g.customResult then
          (ServerStatus.Available, [DBEvent.queryCustom])
        else
          (ServerStatus.NotReady, [DBEvent.queryCustom])
    | none => (ServerStatus.NotReady, [DBEvent.queryCustom])
  else
    (ServerStatus.NotReady, [DBEvent.queryCustom])

/-- GetStatus of src/database.go lines 188-209.  The first component is
the verdict (`none` models a panic escaping from isReadOnly), the second
the list of actions issued against the connection.  The Go conjunction
!h.availableWhenReadOnly && h.isReadOnly() short-circuits, so isReadOnly
only runs when availableWhenReadOnly is false. -/
def GetStatus (g : Globals) (h : DBHandler) (c : DBConn) :
    Option ServerStatus × List DBEvent :=
  if c.pingOk then
    if g.customQuery ≠ "" then
      let r := getCustomRequest g c
      (some r.1, DBEvent.ping :: r.2)
    else
      let w := getWsrepLocalState c
      if w.1 = Synced ∨ (w.1 = Donor ∧ h.availableWhenDonor = true) then
        if h.availableWhenReadOnly = false then
          let r := isReadOnly c
          match r.1 with
          | some true => (some ServerStatus.ReadOnly, DBEvent.ping :: (w.2 ++ r.2))
          | some false => (some ServerStatus.Available, DBEvent.ping :: (w.2 ++ r.2))
          | none => (none, DBEvent.ping :: (w.2 ++ r.2))
        else
          (some ServerStatus.Available, DBEvent.ping :: w.2)
      else
        (some ServerStatus.NotReady, DBEvent.ping :: w.2)
  else
    (some ServerStatus.Unavailable, [DBEvent.ping])

/-- An HTTP response as produced by the health check handler: status
code, headers added by the handler, and body. -/
structure HTTPResponse where
  status : Nat
  headers : List (String × String)
  body : String
  deriving DecidableEq

/-- The response written by Go http.NotFound: status 404 with the fixed
body, Content-Type and X-Content-Type-Options headers; note that the
handler of src/main.go returns before adding its Connection header on
this path. -/
def notFoundResponse : HTTPResponse :=
  { status := 404,
    headers := [("Content-Type", "text/plain; charset=utf-8"),
                ("X-Content-Type-Options", "nosniff")],
    body := "404 page not found\n" }

/-- serveHTTPHealthCheck of src/main.go lines 142-163.  The verdict that
RunStatusCheck() would produce is passed in as checkResult; the claims
about this handler all condition on the verdict.  A non-matching request
path gets http.NotFound before the Connection header is added; a matching
path gets the Connection header, then a status code and body per verdict. -/
def serveHTTPHealthCheck (configPath reqPath : String)
    (checkResult : ServerStatus) : HTTPResponse :=
  if reqPath ≠ configPath then
    notFoundResponse
  else
    match checkResult with
    | ServerStatus.Available =>
        { status := 200, headers := [("Connection", "close")],
          body := "MySQL cluster node is ready." }
    | ServerStatus.Unavailable =>
        { status := 503, headers := [("Connection", "close")],
          body := "Could not connect to the MySQL cluster node." }
    | ServerStatus.ReadOnly =>
        { status := 503, headers := [("Connection", "close")],
          body := "MySQL cluster node is read-only." }
    | ServerStatus.NotReady =>
        { status := 503, headers := [("Connection", "close")],
          body := "MySQL cluster node is not ready." }

/-- runStandaloneHealthCheck of src/main.go lines 122-140: maps the
verdict of the single evaluation to the logged message and the os.Exit
code. -/
def runStandaloneHealthCheck (checkResult : ServerStatus) : String × Nat :=
  match checkResult with
  | ServerStatus.Available => ("MySQL cluster node is ready.", 0)
  | ServerStatus.Unavailable => ("Could not connect to the MySQL cluster node.", 1)
  | ServerStatus.ReadOnly => ("MySQL cluster node is read-only.", 2)
  | ServerStatus.NotReady => ("MySQL cluster node is not ready.", 3)

/-- The http.path handling of CreateConfig, src/config.go lines 56-67:
the default "/" applies when the config file does not supply the key;
a supplied value other than "/" is inspected at its first rune via
pathRune[0:1], which on the empty string is a slice out of bounds
(a Go runtime panic, modelled as `none`); a value not beginning with
"/" gets "/" prepended.  The function returns the final http.path. -/
def CreateConfig (fileHttpPath : Option String) : Option String :=
  if fileHttpPath.getD "/" = "/" then
    some (fileHttpPath.getD "/")
  else
    match (fileHttpPath.getD "/").data with
    | [] => none
    | c :: _ =>
        if String.mk [c] ≠ "/" then
          some ("/" ++ fileHttpPath.getD "/")
        else
          some (fileHttpPath.getD "/")

/-- The external collaborators used while loading TLS material: the file
system (none models an unreadable file), PEM parsing by
x509.CertPool.AppendCertsFromPEM (which always fails on the nil contents
of a failed read), and tls.LoadX509KeyPair. -/
structure TLSEnv where
  readFile : String → Option String
  pemOk : String → Bool
  keyPairOk : String → String → Bool

/-- The observable contents of the tls.Config built by buildTLSConfig:
whether RootCAs was set, whether the Certificates list was populated, and
whether the loaded key pair was valid (on a LoadX509KeyPair error the Go
code still appends the zero-value certificate). -/
structure TLSConfigModel where
  rootCAsSet : Bool
  certificatesSet : Bool
  certValid : Bool
  deriving DecidableEq

/-- buildTLSConfig of src/database.go lines 143-175.  Returns the built
config together with the error messages logged: an unreadable CA file is
logged and then AppendCertsFromPEM fails on the nil contents (also
logged), leaving RootCAs unset; an unparseable CA leaves RootCAs unset;
a failed LoadX509KeyPair is logged but the zero-value certificate is
still appended to Certificates. -/
def buildTLSConfig (config : AppConfig) (env : TLSEnv) :
    TLSConfigModel × List String :=
  let caPart :=
    match config.tlsCA with
    | some caPath =>
        match env.readFile caPath with
        | some pem =>
            if env.pemOk pem then (true, ([] : List String))
            else (false, ["Failed to append PEM."])
        | none => (false, ["read file error", "Failed to append PEM."])
    | none => (true, ([] : List String))
  let caSet :=
    match config.tlsCA with
    | some _ => caPart.1
    | none => false
  let certPart :=
    match config.tlsCert, config.tlsKey with
    | some certPath, some keyPath =>
        if env.keyPairOk certPath keyPath then (true, true, ([] : List String))
        else (true, false, ["load key pair error"])
    | _, _ => (false, false, ([] : List String))
  ({ rootCAsSet := caSet,
     certificatesSet := certPart.1,
     certValid := certPart.2.1 },
   caPart.2 ++ certPart.2.2)

/-- net.JoinHostPort: wraps the host in brackets when it contains a colon
or a percent sign. -/
def joinHostPort (host port : String) : String :=
  if host.contains ':' || host.contains '%' then
    "[" ++ host ++ "]:" ++ port
  else
    host ++ ":" ++ port

/-- The fields of the mysql.Config assembled by BuildDSN that the claims
observe (mysql.NewConfig leaves TLSConfig empty). -/
structure DSNConfig where
  net : String
  addr : String
  user : String
  passwd : String
  tlsConfig : String
  deriving DecidableEq

/-- The outcome of BuildDSN: the assembled DSN configuration, the TLS
profiles registered with mysql.RegisterTLSConfig together with the
configs registered under them, and the error messages logged while
loading TLS material. -/
structure DSNResult where
  dsn : DSNConfig
  registeredTLS : List (String × TLSConfigModel)
  errors : List String
  deriving DecidableEq

/-- BuildDSN of src/database.go lines 86-140.  The three TLS ifs run in
sequence: tls.required sets TLSConfig to "true"; a set tls.ca builds and
registers the "custom" profile (mysql.RegisterTLSConfig only rejects the
reserved names, so registering "custom" never fails) and sets TLSConfig
to "custom" regardless of whether loading the material succeeded;
tls.skip-verify then overrides TLSConfig with "skip-verify". -/
def BuildDSN (config : AppConfig) (env : TLSEnv) : DSNResult :=
  let netAddr :=
    match config.unixSocket with
    | some s => ("unix", s)
    | none =>
        match config.port with
        | some p => ("tcp", joinHostPort (config.host.getD "") p)
        | none => ("tcp", config.host.getD "")
  let userStr := config.user.getD ""
  let passwdStr := config.password.getD ""
  let tls1 := if config.tlsRequired then "true" else ""
  let custom :=
    if config.tlsCA.isSome then
      let built := buildTLSConfig config env
      (("custom" : String), [("custom", built.1)], built.2)
    else
      (tls1, ([] : List (String × TLSConfigModel)), ([] : List String))
  let tls3 := if config.tlsSkipVerify then "skip-verify" else custom.1
  { dsn := { net := netAddr.1, addr := netAddr.2, user := userStr,
             passwd := passwdStr, tlsConfig := tls3 },
    registeredTLS := custom.2.1,
    errors := custom.2.2 }

/-- Baseline configuration with no keys set in the config file. -/
def emptyAppConfig : AppConfig :=
  { unixSocket := none, host := none, port := none, user := none,
    password := none, tlsRequired := false, tlsSkipVerify := false,
    tlsCA := none, tlsCert := none, tlsKey := none,
    availableWhenDonor := false, availableWhenReadOnly := false,
    customQuery := none, customResult := none }

/-- Configuration with a custom query and expected result set (C1). -/
def cfgC1 : AppConfig :=
  { emptyAppConfig with
    customQuery := some "SELECT state FROM app_health",
    customResult := some "ok" }

/-- Handler built by CreateDBHandler from cfgC1 (C1). -/
def handlerC1 : DBHandler := (CreateDBHandler cfgC1 initialGlobals).1

/-- Package globals after CreateDBHandler stored the custom query (C1). -/
def globalsC1 : Globals := (CreateDBHandler cfgC1 initialGlobals).2

/-- A reachable node that is still joining the cluster (wsrep state 1)
while its custom health query returns the expected value (C1). -/
def connC1 : DBConn :=
  { pingOk := true, wsrepPrepareOk := true,
    wsrepRow := some ("wsrep_local_state", 1),
    roPrepareOk := true, roRow := some ("read_only", "OFF"),
    customQueryOk := true, customRow := some "ok" }

/-- Node used to exercise the amended C1 statement: synced and writable. -/
def connC1W : DBConn :=
  { pingOk := true, wsrepPrepareOk := true,
    wsrepRow := some ("wsrep_local_state", 4),
    roPrepareOk := true, roRow := some ("read_only", "OFF"),
    customQueryOk := false, customRow := none }

/-- Handler with both availability options off (C1 witness). -/
def handlerC1W : DBHandler :=
  { availableWhenDonor := false, availableWhenReadOnly := false }

/-- Handler with both availability options off (C2). -/
def handlerC2 : DBHandler :=
  { availableWhenDonor := false, availableWhenReadOnly := false }

/-- A reachable synced node on which preparing the read_only query fails
(for instance the server went away between the ping and the probe). -/
def connC2 : DBConn :=
  { pingOk := true, wsrepPrepareOk := true,
    wsrepRow := some ("wsrep_local_state", 4),
    roPrepareOk := false, roRow := none,
    customQueryOk := false, customRow := none }

/-- Handler with both availability options off (C3 witness). -/
def handlerC3 : DBHandler :=
  { availableWhenDonor := false, availableWhenReadOnly := false }

/-- An unreachable node: the ping fails (C3 witness). -/
def connC3 : DBConn :=
  { pingOk := false, wsrepPrepareOk := true,
    wsrepRow := some ("wsrep_local_state", 4),
    roPrepareOk := true, roRow := some ("read_only", "OFF"),
    customQueryOk := true, customRow := some "ok" }

/-- Configuration whose CA file cannot be read (C7). -/
def cfgC7 : AppConfig :=
  { emptyAppConfig with host := some "db01", tlsCA := some "/etc/ssl/ca.pem" }

/-- Environment in which every file read fails (C7). -/
def envC7 : TLSEnv :=
  { readFile := fun _ => none, pemOk := fun _ => false,
    keyPairOk := fun _ _ => false }

/-- Globals with a custom query configured (C8). -/
def globalsC8 : Globals :=
  { customQuery := "SELECT state FROM app_health", customResult := "ok" }

/-- Handler with both availability options off (C8). -/
def handlerC8 : DBHandler :=
  { availableWhenDonor := false, availableWhenReadOnly := false }

/-- First of two nodes agreeing on ping, replication state and read-only
string, differing only in the custom query result (C8). -/
def connC8a : DBConn :=
  { pingOk := true, wsrepPrepareOk := true,
    wsrepRow := some ("wsrep_local_state", 4),
    roPrepareOk := true, roRow := some ("read_only", "OFF"),
    customQueryOk := true, customRow := some "ok" }

/-- Second node of the C8 pair: same three signals, different custom row. -/
def connC8b : DBConn :=
  { pingOk := true, wsrepPrepareOk := true,
    wsrepRow := some ("wsrep_local_state", 4),
    roPrepareOk := true, roRow := some ("read_only", "OFF"),
    customQueryOk := true, customRow := some "failed" }

/-- Configuration with availableWhenReadOnly set and a custom query (C9). -/
def cfgC9 : AppConfig :=
  { emptyAppConfig with
    availableWhenReadOnly := true,
    customQuery := some "SELECT state FROM app_health",
    customResult := some "ok" }

/-- Handler built from cfgC9 (C9). -/
def handlerC9 : DBHandler := (CreateDBHandler cfgC9 initialGlobals).1

/-- Globals after CreateDBHandler stored the custom query of cfgC9 (C9). -/
def globalsC9 : Globals := (CreateDBHandler cfgC9 initialGlobals).2

/-- A reachable synced node whose custom query result does not match (C9). -/
def connC9 : DBConn :=
  { pingOk := true, wsrepPrepareOk := true,
    wsrepRow := some ("wsrep_local_state", 4),
    roPrepareOk := true, roRow := some ("read_only", "OFF"),
    customQueryOk := true, customRow := some "failed" }

/-- A reachable synced node with no custom query data (C9 witness). -/
def connC9W : DBConn :=
  { pingOk := true, wsrepPrepareOk := true,
    wsrepRow := some ("wsrep_local_state", 4),
    roPrepareOk := true, roRow := some ("read_only", "ON"),
    customQueryOk := false, customRow := none }

/-- Handler that treats read-only nodes as available (C9 witness). -/
def handlerC9W : DBHandler :=
  { availableWhenDonor := false, availableWhenReadOnly := true }

/-- First node of the C8 witness pair: same signal values as the second,
different name columns and custom-row fields. -/
def connC8W1 : DBConn :=
  { pingOk := true, wsrepPrepareOk := true,
    wsrepRow := some ("wsrep_local_state", 4),
    roPrepareOk := true, roRow := some ("read_only", "ON"),
    customQueryOk := true, customRow := some "ok" }

/-- Second node of the C8 witness pair. -/
def connC8W2 : DBConn :=
  { pingOk := true, wsrepPrepareOk := true,
    wsrepRow := some ("renamed_column", 4),
    roPrepareOk := true, roRow := some ("renamed_column", "ON"),
    customQueryOk := false, customRow := none }

/-- The replication probe result is determined by the prepare outcome and
the integer column of the scanned row. -/
theorem getWsrepLocalState_fst (c : DBConn) :
    (getWsrepLocalState c).1 =
      if c.wsrepPrepareOk then (c.wsrepRow.map Prod.snd).getD Joining
      else Joining := by
  rcases hw : c.wsrepRow with _ | ⟨a, v⟩ <;> cases hp : c.wsrepPrepareOk <;>
    simp [getWsrepLocalState, hw, hp]

/-- The read-only probe result is determined by the prepare outcome and
the string column of the scanned row. -/
theorem isReadOnly_fst (c : DBConn) :
    (isReadOnly c).1 =
      if c.roPrepareOk then
        if (c.roRow.map Prod.snd).getD "" = "OFF" then some false else some true
      else none := by
  rcases hw : c.roRow with _ | ⟨a, v⟩ <;> cases hp : c.roPrepareOk <;>
    simp [isReadOnly, hw, hp]
  split <;> simp_all

/-- The replication probe never prepares the read-only query. -/
theorem prepareRO_not_mem_wsrep_trace (c : DBConn) :
    DBEvent.prepareRO ∉ (getWsrepLocalState c).2 := by
  rcases hw : c.wsrepRow with _ | ⟨a, v⟩ <;> cases hp : c.wsrepPrepareOk <;>
    simp [getWsrepLocalState, hw, hp]

/-- The replication probe never runs the read-only query. -/
theorem queryRO_not_mem_wsrep_trace (c : DBConn) :
    DBEvent.queryRO ∉ (getWsrepLocalState c).2 := by
  rcases hw : c.wsrepRow with _ | ⟨a, v⟩ <;> cases hp : c.wsrepPrepareOk <;>
    simp [getWsrepLocalState, hw, hp]

/-- With no custom query configured, the verdict of GetStatus is the
wsrep/read-only decision tree over the two probe results. -/
theorem GetStatus_fst_of_no_custom (g : Globals) (h : DBHandler) (c : DBConn)
    (hcq : g.customQuery = "") :
    (GetStatus g h c).1 =
      if c.pingOk then
        if (getWsrepLocalState c).1 = Synced ∨
            ((getWsrepLocalState c).1 = Donor ∧ h.availableWhenDonor = true) then
          if h.availableWhenReadOnly = false then
            (match (isReadOnly c).1 with
             | some true => some ServerStatus.ReadOnly
             | some false => some ServerStatus.Available
             | none => none)
          else some ServerStatus.Available
        else some ServerStatus.NotReady
      else some ServerStatus.Unavailable := by
  unfold GetStatus
  rw [hcq]
  simp only [ne_eq, not_true_eq_false, if_false, ite_false, reduceIte]
  cases hping : c.pingOk
  · simp
  · simp only [if_true, reduceIte]
    by_cases hw : (getWsrepLocalState c).1 = Synced ∨
        ((getWsrepLocalState c).1 = Donor ∧ h.availableWhenDonor = true)
    · simp only [hw, if_true, reduceIte]
      by_cases hro : h.availableWhenReadOnly = false
      · simp only [hro, if_true, reduceIte]
        rcases hr : (isReadOnly c).1 with _ | b
        · rfl
        · cases b <;> rfl
      · simp [hro]
    · simp only [hw, if_false, reduceIte]

/-- Claim C1, counterexample: on a reachable node with a custom query
configured, GetStatus returns Available even though the replication state
is Joining (neither Synced nor Donor), where the claim requires NotReady. -/
theorem c1_counterexample :
    (getWsrepLocalState connC1).1 ≠ Synced
    ∧ (getWsrepLocalState connC1).1 ≠ Donor
    ∧ connC1.pingOk = true
    ∧ (GetStatus globalsC1 handlerC1 connC1).1 = some ServerStatus.Available := by
  decide

/-- Claim C1 as amended: when no custom query is configured and the
read-only prepare step succeeds, an evaluation whose ping succeeds
follows the claimed decision tree and always yields a verdict. -/
theorem c1_amended (g : Globals) (h : DBHandler) (c : DBConn)
    (hcq : g.customQuery = "")
    (hping : c.pingOk = true)
    (hprep : c.roPrepareOk = true) :
    (GetStatus g h c).1.isSome = true
    ∧ (¬((getWsrepLocalState c).1 = Synced ∨
          ((getWsrepLocalState c).1 = Donor ∧ h.availableWhenDonor = true)) →
        (GetStatus g h c).1 = some ServerStatus.NotReady)
    ∧ (((getWsrepLocalState c).1 = Synced ∨
          ((getWsrepLocalState c).1 = Donor ∧ h.availableWhenDonor = true)) →
        ((h.availableWhenReadOnly = false ∧ (isReadOnly c).1 = some true →
            (GetStatus g h c).1 = some ServerStatus.ReadOnly)
         ∧ ((h.availableWhenReadOnly = true ∨ (isReadOnly c).1 = some false) →
            (GetStatus g h c).1 = some ServerStatus.Available))) := by
  have hr : (isReadOnly c).1 =
      if (c.roRow.map Prod.snd).getD "" = "OFF" then some false else some true := by
    rw [isReadOnly_fst, if_pos hprep]
  rw [GetStatus_fst_of_no_custom g h c hcq]
  by_cases hw : (getWsrepLocalState c).1 = Synced ∨
      ((getWsrepLocalState c).1 = Donor ∧ h.availableWhenDonor = true)
  · cases hro : h.availableWhenReadOnly
    · by_cases hoff : (c.roRow.map Prod.snd).getD "" = "OFF"
      · simp [hping, hw, hr, hoff]
      · simp [hping, hw, hr, hoff]
    · simp [hping, hw, hro, hr]
  · simp [hping, hw]

/-- Fixture evaluation for the C1 witness. -/
theorem c1_amended_witness :
    (GetStatus initialGlobals handlerC1W connC1W).1.isSome = true
    ∧ (¬((getWsrepLocalState connC1W).1 = Synced ∨
          ((getWsrepLocalState connC1W).1 = Donor
            ∧ handlerC1W.availableWhenDonor = true)) →
        (GetStatus initialGlobals handlerC1W connC1W).1 = some ServerStatus.NotReady)
    ∧ (((getWsrepLocalState connC1W).1 = Synced ∨
          ((getWsrepLocalState connC1W).1 = Donor
            ∧ handlerC1W.availableWhenDonor = true)) →
        ((handlerC1W.availableWhenReadOnly = false
            ∧ (isReadOnly connC1W).1 = some true →
            (GetStatus initialGlobals handlerC1W connC1W).1
              = some ServerStatus.ReadOnly)
         ∧ ((handlerC1W.availableWhenReadOnly = true
            ∨ (isReadOnly connC1W).1 = some false) →
            (GetStatus initialGlobals handlerC1W connC1W).1
              = some ServerStatus.Available))) :=
  c1_amended initialGlobals handlerC1W connC1W rfl rfl rfl

/-- Claim C2: on the failing input (prepare of the read_only query
errors), the read-only probe does not return true and does not release a
statement; the nil statement handle is dereferenced and the probe (and
with it the whole evaluation) panics instead of producing a verdict. -/
theorem c2_read_only_prepare_error_panics :
    (isReadOnly connC2).1 = none
    ∧ DBEvent.closeRO ∉ (isReadOnly connC2).2
    ∧ (GetStatus initialGlobals handlerC2 connC2).1 = none := by
  decide

/-- Claim C3: when the ping fails, the evaluation returns Unavailable and
its trace against the connection is the ping alone: no replication-state,
read-only or custom query is prepared or issued. -/
theorem c3_unreachable_no_probes (g : Globals) (h : DBHandler) (c : DBConn)
    (hping : c.pingOk = false) :
    (GetStatus g h c).1 = some ServerStatus.Unavailable
    ∧ (GetStatus g h c).2 = [DBEvent.ping]
    ∧ DBEvent.prepareWsrep ∉ (GetStatus g h c).2
    ∧ DBEvent.queryWsrep ∉ (GetStatus g h c).2
    ∧ DBEvent.prepareRO ∉ (GetStatus g h c).2
    ∧ DBEvent.queryRO ∉ (GetStatus g h c).2
    ∧ DBEvent.queryCustom ∉ (GetStatus g h c).2 := by
  simp [GetStatus, hping]

/-- Fixture evaluation for the C3 witness. -/
theorem c3_witness :
    (GetStatus initialGlobals handlerC3 connC3).1 = some ServerStatus.Unavailable
    ∧ (GetStatus initialGlobals handlerC3 connC3).2 = [DBEvent.ping]
    ∧ DBEvent.prepareWsrep ∉ (GetStatus initialGlobals handlerC3 connC3).2
    ∧ DBEvent.queryWsrep ∉ (GetStatus initialGlobals handlerC3 connC3).2
    ∧ DBEvent.prepareRO ∉ (GetStatus initialGlobals handlerC3 connC3).2
    ∧ DBEvent.queryRO ∉ (GetStatus initialGlobals handlerC3 connC3).2
    ∧ DBEvent.queryCustom ∉ (GetStatus initialGlobals handlerC3 connC3).2 :=
  c3_unreachable_no_probes initialGlobals handlerC3 connC3 rfl

/-- Claim C5: the standalone health check maps the four verdicts to the
exit codes 0, 1, 2 and 3. -/
theorem c5_standalone_exit_codes :
    (runStandaloneHealthCheck ServerStatus.Available).2 = 0
    ∧ (runStandaloneHealthCheck ServerStatus.Unavailable).2 = 1
    ∧ (runStandaloneHealthCheck ServerStatus.ReadOnly).2 = 2
    ∧ (runStandaloneHealthCheck ServerStatus.NotReady).2 = 3 := by
  decide

/-- Claim C6, counterexample: the 404 response for a non-matching path is
produced by the early return before the handler adds its Connection
header, so it does not carry Connection close. -/
theorem c6_counterexample :
    (serveHTTPHealthCheck "/" "/other" ServerStatus.Available).status = 404
    ∧ ("Connection", "close")
        ∉ (serveHTTPHealthCheck "/" "/other" ServerStatus.Available).headers := by
  decide

/-- Claim C6 as amended: every response for a request whose path matches
the configured path carries a Connection close header. -/
theorem c6_amended (configPath : String) (s : ServerStatus) :
    ("Connection", "close")
      ∈ (serveHTTPHealthCheck configPath configPath s).headers := by
  cases s <;> simp [serveHTTPHealthCheck]

/-- Claim C4: a non-matching request path gets the http.NotFound response
(404); a matching path gets 200 with the exact ready body when the
verdict is Available, and 503 with a non-empty, verdict-specific body for
every other verdict. -/
theorem c4_http_response_mapping (configPath reqPath : String) (s : ServerStatus) :
    (reqPath ≠ configPath →
        serveHTTPHealthCheck configPath reqPath s = notFoundResponse
        ∧ (serveHTTPHealthCheck configPath reqPath s).status = 404)
    ∧ (reqPath = configPath →
        (s = ServerStatus.Available →
            (serveHTTPHealthCheck configPath reqPath s).status = 200
            ∧ (serveHTTPHealthCheck configPath reqPath s).body
                = "MySQL cluster node is ready.")
        ∧ (s ≠ ServerStatus.Available →
            (serveHTTPHealthCheck configPath reqPath s).status = 503
            ∧ (serveHTTPHealthCheck configPath reqPath s).body ≠ "")
        ∧ (∀ t : ServerStatus, t ≠ s →
            (serveHTTPHealthCheck configPath reqPath s).body
              ≠ (serveHTTPHealthCheck configPath reqPath t).body)) := by
  constructor
  · intro hne
    refine ⟨?_, ?_⟩ <;> simp [serveHTTPHealthCheck, hne, notFoundResponse]
  · intro heq
    subst heq
    refine ⟨?_, ?_, ?_⟩
    · intro hs
      subst hs
      simp [serveHTTPHealthCheck]
    · intro hs
      cases s
      · exact absurd rfl hs
      all_goals simp [serveHTTPHealthCheck]
    · intro t ht
      cases s <;> cases t <;> simp_all [serveHTTPHealthCheck]

/-- Fixture evaluation for the C4 witness. -/
theorem c4_witness :
    (("/nope" : String) ≠ "/status" →
        serveHTTPHealthCheck "/status" "/nope" ServerStatus.ReadOnly
          = notFoundResponse
        ∧ (serveHTTPHealthCheck "/status" "/nope" ServerStatus.ReadOnly).status
          = 404)
    ∧ (("/nope" : String) = "/status" →
        (ServerStatus.ReadOnly = ServerStatus.Available →
            (serveHTTPHealthCheck "/status" "/nope" ServerStatus.ReadOnly).status
              = 200
            ∧ (serveHTTPHealthCheck "/status" "/nope" ServerStatus.ReadOnly).body
              = "MySQL cluster node is ready.")
        ∧ (ServerStatus.ReadOnly ≠ ServerStatus.Available →
            (serveHTTPHealthCheck "/status" "/nope" ServerStatus.ReadOnly).status
              = 503
            ∧ (serveHTTPHealthCheck "/status" "/nope" ServerStatus.ReadOnly).body
              ≠ "")
        ∧ (∀ t : ServerStatus, t ≠ ServerStatus.ReadOnly →
            (serveHTTPHealthCheck "/status" "/nope" ServerStatus.ReadOnly).body
              ≠ (serveHTTPHealthCheck "/status" "/nope" t).body)) :=
  c4_http_response_mapping "/status" "/nope" ServerStatus.ReadOnly

/-- Claim C7, counterexample: with an unreadable CA file the load failure
is logged, yet the custom TLS profile is still registered and the DSN is
built with tls set to that profile, not without it. -/
theorem c7_counterexample :
    (BuildDSN cfgC7 envC7).errors ≠ []
    ∧ (BuildDSN cfgC7 envC7).registeredTLS.map Prod.fst = ["custom"]
    ∧ (BuildDSN cfgC7 envC7).dsn.tlsConfig = "custom" := by
  decide

/-- Claim C7 as amended: an unreadable CA file is logged as an error, but
the custom profile is registered anyway (with RootCAs unset) and the DSN
still selects it. -/
theorem c7_amended (config : AppConfig) (env : TLSEnv) (caPath : String)
    (hca : config.tlsCA = some caPath)
    (hread : env.readFile caPath = none)
    (hsv : config.tlsSkipVerify = false) :
    (BuildDSN config env).errors ≠ []
    ∧ (BuildDSN config env).registeredTLS.map Prod.fst = ["custom"]
    ∧ (BuildDSN config env).dsn.tlsConfig = "custom"
    ∧ ∀ p ∈ (BuildDSN config env).registeredTLS, p.2.rootCAsSet = false := by
  refine ⟨?_, ?_, ?_, ?_⟩ <;>
    simp [BuildDSN, buildTLSConfig, hca, hread, hsv]

/-- Fixture evaluation for the C7 witness. -/
theorem c7_witness :
    (BuildDSN cfgC7 envC7).errors ≠ []
    ∧ (BuildDSN cfgC7 envC7).registeredTLS.map Prod.fst = ["custom"]
    ∧ (BuildDSN cfgC7 envC7).dsn.tlsConfig = "custom"
    ∧ ∀ p ∈ (BuildDSN cfgC7 envC7).registeredTLS, p.2.rootCAsSet = false :=
  c7_amended cfgC7 envC7 "/etc/ssl/ca.pem" rfl rfl rfl

/-- Claim C8, counterexample: with a custom query configured, two nodes
agreeing on the ping outcome, the replication-state row and the read-only
row (the three claimed signals) receive different verdicts, so the
verdict is not determined by those three signals. -/
theorem c8_counterexample :
    connC8a.pingOk = connC8b.pingOk
    ∧ connC8a.wsrepPrepareOk = connC8b.wsrepPrepareOk
    ∧ connC8a.wsrepRow = connC8b.wsrepRow
    ∧ connC8a.roPrepareOk = connC8b.roPrepareOk
    ∧ connC8a.roRow = connC8b.roRow
    ∧ (GetStatus globalsC8 handlerC8 connC8a).1
        ≠ (GetStatus globalsC8 handlerC8 connC8b).1 := by
  decide

/-- Claim C8 as amended: with no custom query configured, the verdict is
a function of the ping outcome, each probes prepare outcome and the value
column each probe scans; in particular it is stable across repeated calls
against an unchanged backing state (the evaluator keeps no state). -/
theorem c8_amended (g : Globals) (h : DBHandler) (c1 c2 : DBConn)
    (hcq : g.customQuery = "")
    (hp : c1.pingOk = c2.pingOk)
    (hwp : c1.wsrepPrepareOk = c2.wsrepPrepareOk)
    (hwv : c1.wsrepRow.map Prod.snd = c2.wsrepRow.map Prod.snd)
    (hrp : c1.roPrepareOk = c2.roPrepareOk)
    (hrv : c1.roRow.map Prod.snd = c2.roRow.map Prod.snd) :
    (GetStatus g h c1).1 = (GetStatus g h c2).1 := by
  have hw : (getWsrepLocalState c1).1 = (getWsrepLocalState c2).1 := by
    rw [getWsrepLocalState_fst, getWsrepLocalState_fst, hwp, hwv]
  have hr : (isReadOnly c1).1 = (isReadOnly c2).1 := by
    rw [isReadOnly_fst, isReadOnly_fst, hrp, hrv]
  rw [GetStatus_fst_of_no_custom g h c1 hcq,
    GetStatus_fst_of_no_custom g h c2 hcq, hp, hw, hr]

/-- Fixture evaluation for the C8 witness. -/
theorem c8_witness :
    (GetStatus initialGlobals handlerC8 connC8W1).1
      = (GetStatus initialGlobals handlerC8 connC8W2).1 :=
  c8_amended initialGlobals handlerC8 connC8W1 connC8W2 rfl rfl rfl rfl rfl rfl

/-- Claim C9, counterexample: a reachable synced node with
availableWhenReadOnly set does not get Available when a custom query is
configured and its result does not match. -/
theorem c9_counterexample :
    (getWsrepLocalState connC9).1 = Synced
    ∧ handlerC9.availableWhenReadOnly = true
    ∧ connC9.pingOk = true
    ∧ (GetStatus globalsC9 handlerC9 connC9).1 = some ServerStatus.NotReady := by
  decide

/-- Claim C9 as amended: with no custom query configured, a reachable
node whose replication probe yields Synced (or Donor with
availableWhenDonor) and whose handler has availableWhenReadOnly set is
reported Available and the read-only query is neither prepared nor run. -/
theorem c9_amended (g : Globals) (h : DBHandler) (c : DBConn)
    (hcq : g.customQuery = "") (hping : c.pingOk = true)
    (hw : (getWsrepLocalState c).1 = Synced ∨
          ((getWsrepLocalState c).1 = Donor ∧ h.availableWhenDonor = true))
    (hro : h.availableWhenReadOnly = true) :
    (GetStatus g h c).1 = some ServerStatus.Available
    ∧ DBEvent.prepareRO ∉ (GetStatus g h c).2
    ∧ DBEvent.queryRO ∉ (GetStatus g h c).2 := by
  have htrace : (GetStatus g h c).2 = DBEvent.ping :: (getWsrepLocalState c).2 := by
    simp [GetStatus, hcq, hping, hw, hro]
  refine ⟨?_, ?_, ?_⟩
  · rw [GetStatus_fst_of_no_custom g h c hcq]
    simp [hping, hw, hro]
  · rw [htrace]
    simp [List.mem_cons, prepareRO_not_mem_wsrep_trace c]
  · rw [htrace]
    simp [List.mem_cons, queryRO_not_mem_wsrep_trace c]

/-- Fixture evaluation for the C9 witness. -/
theorem c9_witness :
    (GetStatus initialGlobals handlerC9W connC9W).1 = some ServerStatus.Available
    ∧ DBEvent.prepareRO ∉ (GetStatus initialGlobals handlerC9W connC9W).2
    ∧ DBEvent.queryRO ∉ (GetStatus initialGlobals handlerC9W connC9W).2 :=
  c9_amended initialGlobals handlerC9W connC9W rfl rfl (Or.inl (by decide)) rfl

/-- A supplied non-empty path is normalized by its first rune: kept when
it already starts with the slash, prefixed with the slash otherwise. -/
theorem CreateConfig_cons (c : Char) (cs : List Char) :
    CreateConfig (some (String.mk (c :: cs))) =
      if c = '/' then some (String.mk (c :: cs))
      else some ("/" ++ String.mk (c :: cs)) := by
  by_cases hpr : String.mk (c :: cs) = "/"
  · have hlist : c :: cs = ['/'] := by
      have h2 := congrArg String.data hpr
      simpa using h2
    have hc : c = '/' := (List.cons.injEq c cs '/' []).mp hlist |>.1
    simp [CreateConfig, hpr, hc]
  · have hred : CreateConfig (some (String.mk (c :: cs))) =
        if String.mk [c] ≠ "/" then some ("/" ++ String.mk (c :: cs))
        else some (String.mk (c :: cs)) := by
      simp only [CreateConfig, Option.getD_some]
      rw [if_neg hpr]
    rw [hred]
    by_cases hc : c = '/'
    · subst hc
      simp
    · have hone : String.mk [c] ≠ "/" := by
        intro h
        apply hc
        have h2 := congrArg String.data h
        simpa using h2
      simp [hone, hc]

/-- Claim C10, counterexample: when the config file supplies the empty
string for http.path, the normalization slices the first rune of an empty
rune slice, a runtime panic: CreateConfig does not return a config. -/
theorem c10_counterexample : CreateConfig (some "") = none := by
  decide

/-- Claim C10 as amended: for every non-empty supplied http.path value
the normalization succeeds and yields a path beginning with the slash,
keeping values that already start with it and prefixing the rest; the
empty string instead makes the normalization panic. -/
theorem c10_amended (v : String) (hv : v ≠ "") :
    (CreateConfig (some v)).isSome = true
    ∧ ((CreateConfig (some v)).getD "").data.head? = some '/'
    ∧ (v.data.head? = some '/' → CreateConfig (some v) = some v)
    ∧ (v.data.head? ≠ some '/' → CreateConfig (some v) = some ("/" ++ v)) := by
  obtain ⟨l⟩ := v
  cases l with
  | nil => exact absurd rfl hv
  | cons c cs =>
    rw [CreateConfig_cons]
    by_cases hc : c = '/'
    · subst hc
      refine ⟨by simp, by simp, fun _ => by simp, fun hbad => ?_⟩
      exact absurd rfl hbad
    · have hhead : (String.mk (c :: cs)).data.head? = some c := rfl
      refine ⟨by simp [hc], ?_, fun hgood => ?_, fun _ => by simp [hc]⟩
      · have happ : ("/" ++ String.mk (c :: cs)).data.head? = some '/' := rfl
        simp [hc, happ]
      · rw [hhead] at hgood
        exact absurd (Option.some.injEq c '/' ▸ hgood) hc

/-- Fixture evaluation for the C10 witness. -/
theorem c10_witness :
    (CreateConfig (some "status")).isSome = true
    ∧ ((CreateConfig (some "status")).getD "").data.head? = some '/'
    ∧ ("status".data.head? = some '/' →
        CreateConfig (some "status") = some "status")
    ∧ ("status".data.head? ≠ some '/' →
        CreateConfig (some "status") = some ("/" ++ "status")) :=
  c10_amended "status" (by decide)

/-- Fixture evaluation for the C6 witness. -/
theorem c6_witness :
    ("Connection", "close")
      ∈ (serveHTTPHealthCheck "/status" "/status" ServerStatus.NotReady).headers :=
  c6_amended "/status" ServerStatus.NotReady
